import Mathlib

/-!
Verification of the Virtual Drive Mount & Cache Reconciliation Controller
(`VirtualDrive` component) against its design specification.

The controller is a collection of asynchronous transition handlers
(`onCheckedChange`, `changeMountPoint`, `onDriveLetterChange`,
`onCacheChange`, `cleanupCache`) that serialize configuration changes under
a single in-flight guard (`enabling`), issue native desktop-API calls,
refresh query caches, and update the persisted virtual-drive configuration.

The embedding below is a shallow one: every `await`ed external call is
resolved through an oracle environment `Env` that fixes the outcome of each
call site (success value or thrown error message), and each transition is a
pure function from the oracle plus the controller state to the final state
together with a trace of observable events (native calls issued, query
refetches, error toasts, confirmation dialogs). TypeScript `try/catch/finally`
is made explicit: bodies run in an error monad accumulating the event trace,
the shared failure handler models the `catch` blocks, and the `finally`
release of the guard is folded into the wrappers.
-/

namespace VirtualDrive

/-- The persisted virtual-drive configuration (`desktopConfig.virtualDriveConfig`):
`enabled`, `mountPoint`, `cacheSizeInGi`. -/
structure VirtualDriveConfig where
  enabled : Bool
  mountPoint : String
  cacheSizeInGi : Int
  deriving Repr, DecidableEq

/-- Controller state: the single-flight guard (`enabling` React state) plus the
persisted configuration. -/
structure ControllerState where
  enabling : Bool
  config : VirtualDriveConfig
  deriving Repr, DecidableEq

/-- The two independent native mount-status signals returned by
`window.desktopAPI.isVirtualDriveMounted()` and
`window.desktopAPI.isVirtualDriveActive()`. -/
structure MountedPair where
  present : Bool
  active : Bool
  deriving Repr, DecidableEq

/-- `isVirtualDriveMounted` (source lines 19-25): queries both native signals and
reports their conjunction `mounted && active` as the single `mounted` flag. -/
def isVirtualDriveMounted (p : MountedPair) : Bool :=
  p.present && p.active

/-- Result of `window.desktopAPI.selectDirectory(false)`. -/
structure SelectDirectoryResult where
  cancelled : Bool
  paths : List String
  deriving Repr, DecidableEq

/-- TypeScript `selectDirectoryResult.paths[0]` with `undefined` collapsed to the
empty string: both `undefined` and `""` are falsy in the guard
`if (selectDirectoryResult.cancelled || !selectDirectoryResult.paths[0])`. -/
def firstPath (res : SelectDirectoryResult) : String :=
  res.paths.head?.getD ""

/-- Native desktop-API calls the controller issues (each `await window.desktopAPI.…`). -/
inductive NativeCall where
  | isVirtualDriveMounted
  | isVirtualDriveActive
  | selectDirectory
  | verifyUnixMountPath (path : String)
  | restartVirtualDrive
  | stopVirtualDrive
  | virtualDriveCleanupCache
  deriving Repr, DecidableEq

/-- The four react-query caches the controller refetches. -/
inductive QueryName where
  | isMounted
  | availableDrives
  | cacheSize
  | availableCache
  deriving Repr, DecidableEq

/-- Observable events of a transition run, in program order. -/
inductive Event where
  | native (c : NativeCall)
  | refetch (q : QueryName)
  | toast (msg : String)
  | dialog
  | consoleError
  deriving Repr, DecidableEq

/-- Translation key of the invalid-mount-point error toast. -/
def invalidMountPointMsg : String := "mounts.virtualDrive.errors.invalidMountPoint"

/-- Message of the error thrown when the post-restart re-verification fails. -/
def couldNotStartMsg : String := "Could not start virtual drive."

/-- Oracle environment: one field per external call site fixes the outcome of
that `await` (an `Except.error` models the promise rejecting with that
message). `mountedCheck1` and `mountedCheck2` are the results of the first
and second `isVirtualDriveMounted()` executed inside a transition body.
`mountedAtStart` is the native mount state at transition entry; the code never
reads it directly (it can only query), it exists so that spec claims about the
pre-operation state can be stated. -/
structure Env where
  platform : String
  confirm : Bool
  selectDirectory : Except String SelectDirectoryResult
  verifyUnixMountPath : String → Except String Bool
  mountedCheck1 : Except String MountedPair
  mountedCheck2 : Except String MountedPair
  restart : Except String Unit
  stop : Except String Unit
  cleanupCall : Except String Unit
  mountedAtStart : MountedPair

/-- A transition body run: either a thrown error (message plus the events emitted
before the throw) or a result plus its events. -/
abbrev Run (α : Type) := Except (String × List Event) (α × List Event)

/-- Sequencing of two body steps, accumulating events (models `await` chaining
inside a `try` block). -/
def andThen {α β : Type} (r : Run α) (f : α → Run β) : Run β :=
  match r with
  | .error e => .error e
  | .ok (a, evs) =>
    match f a with
    | .error (m, evs2) => .error (m, evs ++ evs2)
    | .ok (b, evs2) => .ok (b, evs ++ evs2)

/-- A single fallible external call: emits the given events, then either returns
the oracle value or throws. -/
def call {α : Type} (evs : List Event) (r : Except String α) : Run α :=
  match r with
  | .error m => .error (m, evs)
  | .ok a => .ok (a, evs)

/-- Events of one `isVirtualDriveMounted()` helper call: both native signals are
queried (via `Promise.all`). -/
def mountedCheckEvents : List Event :=
  [.native .isVirtualDriveMounted, .native .isVirtualDriveActive]

/-- One `await isVirtualDriveMounted()` inside a body, resolved through the given
oracle field: returns the conjunction flag. -/
def queryMounted (r : Except String MountedPair) : Run Bool :=
  andThen (call mountedCheckEvents r) (fun p => .ok (isVirtualDriveMounted p, []))

/-- The platform-conditional mount-point validation shared by `onCheckedChange` and
`onCacheChange` (and `changeMountPoint`): on non-`win32` platforms
`verifyUnixMountPath` is called on the currently configured mount point; when it
returns `false` the invalid-mount-point toast is shown and the body
early-returns (`.ok (false, …)`); on `win32` no call is made. -/
def validateMountPoint (env : Env) (cfg : VirtualDriveConfig) : Run Bool :=
  if env.platform = "win32" then .ok (true, [])
  else
    andThen (call [.native (.verifyUnixMountPath cfg.mountPoint)] (env.verifyUnixMountPath cfg.mountPoint))
      (fun ok =>
        if ok then .ok (true, [])
        else .ok (false, [.toast invalidMountPointMsg]))

/-- The shared remount step (`changeMountPoint` lines 96-102, `onDriveLetterChange`
lines 139-145, `onCacheChange` lines 261-267): if the drive is currently
mounted, restart it and re-verify; throw `couldNotStartMsg` when the
re-verification still reports unmounted. -/
def remountIfMounted (env : Env) : Run Unit :=
  andThen (queryMounted env.mountedCheck1) (fun m =>
    if m then
      andThen (call [.native .restartVirtualDrive] env.restart) (fun _ =>
        andThen (queryMounted env.mountedCheck2) (fun m2 =>
          if m2 then .ok ((), []) else .error (couldNotStartMsg, [])))
    else .ok ((), []))

/-- Body of the `try` block of `onCheckedChange` (lines 195-223): validate the
configured mount point (non-win32), then restart-and-re-verify when enabling or
stop when disabling, refetch the mount/drive queries, and persist
`enabled := checked`. -/
def onCheckedChangeBody (env : Env) (cfg : VirtualDriveConfig) (checked : Bool) :
    Run VirtualDriveConfig :=
  andThen (validateMountPoint env cfg) (fun valid =>
    if !valid then .ok (cfg, [])
    else
      andThen
        (if checked then
          andThen (call [.native .restartVirtualDrive] env.restart) (fun _ =>
            andThen (queryMounted env.mountedCheck1) (fun m =>
              if m then .ok ((), []) else .error (couldNotStartMsg, [])))
        else call [.native .stopVirtualDrive] env.stop)
        (fun _ =>
          .ok ({ cfg with enabled := checked },
            [.refetch .isMounted, .refetch .availableDrives])))

/-- Body of the `try` block of `changeMountPoint` (lines 80-127): open the
directory picker; early-return when cancelled or no path was selected;
otherwise validate the CURRENTLY CONFIGURED mount point (non-win32), remount if
mounted, refetch, and persist the picked path as the new `mountPoint`. -/
def changeMountPointBody (env : Env) (cfg : VirtualDriveConfig) :
    Run VirtualDriveConfig :=
  andThen (call [.native .selectDirectory] env.selectDirectory) (fun res =>
    if res.cancelled || (firstPath res == "") then .ok (cfg, [])
    else
      andThen (validateMountPoint env cfg) (fun valid =>
        if !valid then .ok (cfg, [])
        else
          andThen (remountIfMounted env) (fun _ =>
            .ok ({ cfg with mountPoint := firstPath res },
              [.refetch .isMounted, .refetch .availableDrives]))))

/-- Body of the `try` block of `onDriveLetterChange` (lines 138-155): remount if
mounted, refetch, persist the selected letter as the new `mountPoint` (no
validation call on win32). -/
def onDriveLetterChangeBody (env : Env) (cfg : VirtualDriveConfig) (letter : String) :
    Run VirtualDriveConfig :=
  andThen (remountIfMounted env) (fun _ =>
    .ok ({ cfg with mountPoint := letter },
      [.refetch .isMounted, .refetch .availableDrives]))

/-- Value of the leading decimal-digit run of a character list (helper for
`parseIntTS`). -/
def parseDigits : List Char → Nat → Nat
  | [], acc => acc
  | c :: cs, acc => if c.isDigit then parseDigits cs (acc * 10 + (c.toNat - 48)) else acc

/-- TypeScript `parseInt` restricted to the unsigned decimal strings this
component passes (the cache tiers rendered via `toString`): the value of the
leading digit run (`0` standing in for `NaN` on digit-free input). -/
def parseIntTS (s : String) : Int :=
  Int.ofNat (parseDigits s.data 0)

/-- Body of the `try` block of `onCacheChange` (lines 251-277): validate the
configured mount point (non-win32), remount if mounted, refetch (including the
available-cache query), and persist `cacheSizeInGi := parseInt(size)` — the
requested size is never checked against the cache-step set. -/
def onCacheChangeBody (env : Env) (cfg : VirtualDriveConfig) (size : String) :
    Run VirtualDriveConfig :=
  andThen (validateMountPoint env cfg) (fun valid =>
    if !valid then .ok (cfg, [])
    else
      andThen (remountIfMounted env) (fun _ =>
        .ok ({ cfg with cacheSizeInGi := parseIntTS size },
          [.refetch .isMounted, .refetch .availableDrives, .refetch .availableCache])))

/-- Body of the `try` block of `cleanupCache` (lines 342-350): stop the drive,
purge the cache, then — if the mounted query issued AFTER the purge reports
mounted — restart; refetch cache-size, mount-state and drive queries; the
configuration is not written on success. -/
def cleanupCacheBody (env : Env) (cfg : VirtualDriveConfig) :
    Run VirtualDriveConfig :=
  andThen (call [.native .stopVirtualDrive] env.stop) (fun _ =>
    andThen (call [.native .virtualDriveCleanupCache] env.cleanupCall) (fun _ =>
      andThen (queryMounted env.mountedCheck1) (fun m =>
        andThen (if m then call [.native .restartVirtualDrive] env.restart else .ok ((), []))
          (fun _ =>
            .ok (cfg, [.refetch .cacheSize, .refetch .isMounted, .refetch .availableDrives])))))

/-- The scoped guard plus shared failure handler wrapped around every transition
body: `setEnabling(true)` / `try body` / `catch` (console.error, error toast,
defensively persist `enabled := false`) / `finally setEnabling(false)`.
`pre` are the events emitted between the guard check and the `try` (the
confirmation dialog, when one was shown). -/
def runGuarded (st : ControllerState) (pre : List Event)
    (body : Run VirtualDriveConfig) : ControllerState × List Event :=
  match body with
  | .ok (cfg, evs) => (⟨false, cfg⟩, pre ++ evs)
  | .error (msg, evs) =>
    (⟨false, { st.config with enabled := false }⟩,
      pre ++ evs ++ [.consoleError, .toast msg])

/-- `onCheckedChange` (lines 175-241): no-op when the guard is held; when
disabling, show the confirmation dialog and abort (before acquiring the guard)
if declined; otherwise run the body under the guard. -/
def onCheckedChange (env : Env) (st : ControllerState) (checked : Bool) :
    ControllerState × List Event :=
  if st.enabling then (st, [])
  else if !checked && !env.confirm then (st, [.dialog])
  else runGuarded st (if checked then [] else [.dialog]) (onCheckedChangeBody env st.config checked)

/-- `changeMountPoint` (lines 73-128): no-op when the guard is held; otherwise run
the body under the guard. -/
def changeMountPoint (env : Env) (st : ControllerState) :
    ControllerState × List Event :=
  if st.enabling then (st, [])
  else runGuarded st [] (changeMountPointBody env st.config)

/-- `onDriveLetterChange` (lines 130-173): no-op when the guard is held; otherwise
run the body under the guard. -/
def onDriveLetterChange (env : Env) (st : ControllerState) (letter : String) :
    ControllerState × List Event :=
  if st.enabling then (st, [])
  else runGuarded st [] (onDriveLetterChangeBody env st.config letter)

/-- `onCacheChange` (lines 243-304): no-op when the guard is held; otherwise run
the body under the guard. -/
def onCacheChange (env : Env) (st : ControllerState) (size : String) :
    ControllerState × List Event :=
  if st.enabling then (st, [])
  else runGuarded st [] (onCacheChangeBody env st.config size)

/-- `cleanupCache` (lines 324-366): no-op when the guard is held; show the
confirmation dialog and abort (before acquiring the guard) if declined;
otherwise run the body under the guard. -/
def cleanupCache (env : Env) (st : ControllerState) :
    ControllerState × List Event :=
  if st.enabling then (st, [])
  else if !env.confirm then (st, [.dialog])
  else runGuarded st [.dialog] (cleanupCacheBody env st.config)

/-- The five mutating transitions, as one indexed family. -/
inductive MutTransition where
  | toggle (checked : Bool)
  | changeMount
  | driveLetter (letter : String)
  | cacheSize (size : String)
  | purge
  deriving Repr, DecidableEq

/-- Dispatch a mutating transition to its entry point. -/
def runMut (tr : MutTransition) (env : Env) (st : ControllerState) :
    ControllerState × List Event :=
  match tr with
  | .toggle checked => onCheckedChange env st checked
  | .changeMount => changeMountPoint env st
  | .driveLetter letter => onDriveLetterChange env st letter
  | .cacheSize size => onCacheChange env st size
  | .purge => cleanupCache env st

/-- The `try`-block body of a mutating transition. -/
def mutBody (tr : MutTransition) (env : Env) (cfg : VirtualDriveConfig) :
    Run VirtualDriveConfig :=
  match tr with
  | .toggle checked => onCheckedChangeBody env cfg checked
  | .changeMount => changeMountPointBody env cfg
  | .driveLetter letter => onDriveLetterChangeBody env cfg letter
  | .cacheSize size => onCacheChangeBody env cfg size
  | .purge => cleanupCacheBody env cfg

/-- Events a transition emits between its guard check and its `try` block (the
confirmation dialog, for disable and purge). -/
def mutPre (tr : MutTransition) : List Event :=
  match tr with
  | .toggle checked => if checked then [] else [.dialog]
  | .purge => [.dialog]
  | _ => []

/-- Modelled from the spec: the Cache Step Generator (`generateCacheSteps`,
imported from `./utils` and absent from the provided sources). Per §4.4 it is a
pure function from the whole-number GiB budget to a strictly increasing,
deterministic ladder of tiers not exceeding the budget, always non-empty,
defaulting to `[10]` when the budget is unknown, zero or negative. The concrete
ladder is an implementation choice per the spec; a fixed ladder of round
numbers filtered by the budget realises it. -/
def generateCacheSteps (availableBudgetGiB : Int) : List Int :=
  let ladder : List Int := [10, 25, 50, 100, 250, 500, 1000]
  let steps := ladder.filter (fun s => decide (s ≤ availableBudgetGiB))
  if steps.isEmpty then [10] else steps

/-- `cacheSteps` (lines 54-60): `[10]` while the available-cache query has not
succeeded (`none`), otherwise the generator applied to
`Math.floor(bytes / 2^30)`. -/
def cacheSteps (availableCacheQuery : Option Int) : List Int :=
  match availableCacheQuery with
  | none => [10]
  | some bytes => generateCacheSteps (Int.fdiv bytes (1024 * 1024 * 1024))

/-- A concrete starting configuration used by the closed instantiations below. -/
def cfg0 : VirtualDriveConfig := ⟨true, "X:", 10⟩

/-- A concrete oracle: win32 platform, confirmations accepted, picker cancelled,
every native call succeeding, drive unmounted throughout. Variants below
override individual fields. -/
def envBase : Env :=
  { platform := "win32"
    confirm := true
    selectDirectory := .ok ⟨true, []⟩
    verifyUnixMountPath := fun _ => .ok true
    mountedCheck1 := .ok ⟨false, false⟩
    mountedCheck2 := .ok ⟨false, false⟩
    restart := .ok ()
    stop := .ok ()
    cleanupCall := .ok ()
    mountedAtStart := ⟨false, false⟩ }

/-- Claim C8: the observed `mounted` flag is the conjunction of the two native
signals (`queryMountPresence` AND `queryMountActive`): it is `true` exactly
when both hold, hence `false` as soon as either signal is `false`. -/
theorem claim8_mounted_conjunction (p : MountedPair) :
    isVirtualDriveMounted p = (p.present && p.active) ∧
    (isVirtualDriveMounted p = true ↔ (p.present = true ∧ p.active = true)) := by
  cases p with
  | mk pr ac => cases pr <;> cases ac <;> simp [isVirtualDriveMounted]

/-- Claim C9: the cache-step set is `[10]` whenever the available cache budget is
unknown, zero or negative: `generateCacheSteps` returns `[10]` on every
non-positive budget (in particular `0` and `-1`), and while the budget query
has not succeeded the controller's `cacheSteps` is `[10]` outright. -/
theorem claim9_cache_floor :
    (∀ b : Int, b ≤ 0 → generateCacheSteps b = [10]) ∧
    generateCacheSteps 0 = [10] ∧
    generateCacheSteps (-1) = [10] ∧
    cacheSteps none = [10] := by
  refine ⟨fun b hb => ?_, by decide, by decide, rfl⟩
  have h : ([10, 25, 50, 100, 250, 500, 1000] : List Int).filter
      (fun s => decide (s ≤ b)) = [] := by
    rw [List.filter_eq_nil_iff]
    intro a ha
    simp only [decide_eq_true_eq]
    fin_cases ha <;> omega
  simp [generateCacheSteps, h]

/-- Witness for C9 at the concrete negative budget `-3`. -/
theorem claim9_witness :
    (-3 : Int) ≤ 0 ∧ generateCacheSteps (-3) = [10] :=
  ⟨by decide, claim9_cache_floor.1 (-3) (by decide)⟩

/-- Claim C6: a disable request whose confirmation dialog is declined aborts
before acquiring the guard: the state (hence `DeclaredConfig`) is returned
unchanged and the trace holds only the dialog — no native call, no refetch
(hence `ObservedStatus` snapshots are untouched), no error toast. -/
theorem claim6_declined_confirm_noop (env : Env) (st : ControllerState)
    (henb : st.enabling = false) (hc : env.confirm = false) :
    onCheckedChange env st false = (st, [Event.dialog]) := by
  simp [onCheckedChange, henb, hc]

/-- Witness for C6: declined disable on a concrete state and oracle. -/
theorem claim6_witness :
    (⟨false, cfg0⟩ : ControllerState).enabling = false ∧
    ({ envBase with confirm := false } : Env).confirm = false ∧
    onCheckedChange { envBase with confirm := false } ⟨false, cfg0⟩ false =
      (⟨false, cfg0⟩, [Event.dialog]) := by
  refine ⟨rfl, rfl, ?_⟩
  exact claim6_declined_confirm_noop { envBase with confirm := false } ⟨false, cfg0⟩ rfl rfl

/-- Claim C10: when the directory picker resolves cancelled, or yields no
selected path, `changeMountPoint` returns with the configuration unchanged,
a trace holding only the picker call (no validation, no remount, no refetch,
no toast), and the guard released (`enabling = false`). -/
theorem claim10_picker_cancelled_noop (env : Env) (st : ControllerState)
    (res : SelectDirectoryResult)
    (henb : st.enabling = false) (hsel : env.selectDirectory = .ok res)
    (habort : res.cancelled = true ∨ firstPath res = "") :
    changeMountPoint env st = (⟨false, st.config⟩, [Event.native NativeCall.selectDirectory]) := by
  have hcond : (res.cancelled || (firstPath res == "")) = true := by
    rcases habort with h | h <;> simp [h]
  simp [changeMountPoint, henb, changeMountPointBody, call, hsel, andThen, hcond, runGuarded]

/-- Witness for C10: cancelled picker on a concrete state and oracle. -/
theorem claim10_witness :
    (⟨false, cfg0⟩ : ControllerState).enabling = false ∧
    envBase.selectDirectory = Except.ok ⟨true, []⟩ ∧
    changeMountPoint envBase ⟨false, cfg0⟩ =
      (⟨false, cfg0⟩, [Event.native NativeCall.selectDirectory]) := by
  refine ⟨rfl, rfl, ?_⟩
  exact claim10_picker_cancelled_noop envBase ⟨false, cfg0⟩ ⟨true, []⟩ rfl rfl (Or.inl rfl)

/-- Claim C5: in the enable transition, when `startOrRestartMount` reports
success but the re-checked mounted conjunction is still false, the transition
fails like a native-call failure: `enabled` is persisted `false` (other fields
untouched), the thrown message is toasted, and the success path (whose refetch
precedes the `enabled := true` write) is never reached. -/
theorem claim5_silent_failure_promoted (env : Env) (st : ControllerState) (p : MountedPair)
    (henb : st.enabling = false)
    (hval : env.platform = "win32" ∨ env.verifyUnixMountPath st.config.mountPoint = .ok true)
    (hrestart : env.restart = .ok ())
    (hcheck : env.mountedCheck1 = .ok p)
    (hdown : isVirtualDriveMounted p = false) :
    (onCheckedChange env st true).1 = ⟨false, { st.config with enabled := false }⟩ ∧
    Event.toast couldNotStartMsg ∈ (onCheckedChange env st true).2 ∧
    Event.refetch QueryName.isMounted ∉ (onCheckedChange env st true).2 := by
  by_cases hp : env.platform = "win32"
  · simp [onCheckedChange, henb, onCheckedChangeBody, validateMountPoint, hp,
      call, andThen, queryMounted, hrestart, hcheck, hdown, runGuarded, mountedCheckEvents]
  · rcases hval with hval | hval
    · exact absurd hval hp
    · simp [onCheckedChange, henb, onCheckedChangeBody, validateMountPoint, hp, hval,
        call, andThen, queryMounted, hrestart, hcheck, hdown, runGuarded, mountedCheckEvents]

/-- Witness for C5: silent restart failure on a concrete state and oracle. -/
theorem claim5_witness :
    (⟨false, cfg0⟩ : ControllerState).enabling = false ∧
    envBase.restart = Except.ok () ∧
    envBase.mountedCheck1 = Except.ok ⟨false, false⟩ ∧
    isVirtualDriveMounted ⟨false, false⟩ = false ∧
    ((onCheckedChange envBase ⟨false, cfg0⟩ true).1 =
        ⟨false, { cfg0 with enabled := false }⟩ ∧
      Event.toast couldNotStartMsg ∈ (onCheckedChange envBase ⟨false, cfg0⟩ true).2 ∧
      Event.refetch QueryName.isMounted ∉ (onCheckedChange envBase ⟨false, cfg0⟩ true).2) := by
  refine ⟨rfl, rfl, rfl, rfl, ?_⟩
  exact claim5_silent_failure_promoted envBase ⟨false, cfg0⟩ ⟨false, false⟩ rfl
    (Or.inl rfl) rfl rfl rfl

/-- The scoped wrapper always leaves the guard released, whichever way the body
ended. -/
theorem runGuarded_enabling (st : ControllerState) (pre : List Event)
    (body : Run VirtualDriveConfig) : (runGuarded st pre body).1.enabling = false := by
  unfold runGuarded
  rcases body with ⟨m, evs⟩ | ⟨cfg, evs⟩ <;> rfl

/-- Claim C1: every mutating transition no-ops — identical state, empty trace,
so no native call, no config write, no refetch — when the single-flight guard
is already held; and whenever the guard is free at entry it is free again at
exit (the scoped acquisition releases it on every path, thrown errors
included), which the second conjunct states as preservation of the guard
flag across the call. -/
theorem claim1_single_flight_guard (tr : MutTransition) (env : Env) (st : ControllerState) :
    (st.enabling = true → runMut tr env st = (st, [])) ∧
    (runMut tr env st).1.enabling = st.enabling := by
  refine ⟨fun h => ?_, ?_⟩
  · cases tr <;> simp [runMut, onCheckedChange, changeMountPoint, onDriveLetterChange,
      onCacheChange, cleanupCache, h]
  · by_cases h : st.enabling = true
    · cases tr <;> simp [runMut, onCheckedChange, changeMountPoint, onDriveLetterChange,
        onCacheChange, cleanupCache, h]
    · have h0 : st.enabling = false := by
        cases hst : st.enabling
        · rfl
        · exact absurd hst h
      rw [h0]
      cases tr <;>
        simp only [runMut, onCheckedChange, changeMountPoint, onDriveLetterChange,
          onCacheChange, cleanupCache, h0, Bool.false_eq_true, if_false] <;>
        (try split) <;>
        simp [runGuarded_enabling, h0]

/-- Witness for C1: a toggle attempted while the guard is held is an exact no-op. -/
theorem claim1_witness :
    (⟨true, cfg0⟩ : ControllerState).enabling = true ∧
    runMut (MutTransition.toggle true) envBase ⟨true, cfg0⟩ = (⟨true, cfg0⟩, []) := by
  refine ⟨rfl, ?_⟩
  exact (claim1_single_flight_guard (MutTransition.toggle true) envBase ⟨true, cfg0⟩).1 rfl

/-- Claim C4: for every mutating transition, a failure thrown during the native
operation sequence (the `try` body) reaches the shared handler: the error
message is surfaced as a toast, `enabled` is persisted `false`, and the other
configuration fields (`mountPoint`, `cacheSizeInGi`) are exactly those of the
entry state. -/
theorem claim4_failure_rollback (tr : MutTransition) (env : Env) (st : ControllerState)
    (msg : String) (evs : List Event)
    (henb : st.enabling = false) (hconf : env.confirm = true)
    (hbody : mutBody tr env st.config = .error (msg, evs)) :
    runMut tr env st =
      (⟨false, { st.config with enabled := false }⟩,
        mutPre tr ++ evs ++ [Event.consoleError, Event.toast msg]) := by
  cases tr <;>
    simp only [mutBody] at hbody <;>
    simp [runMut, mutPre, onCheckedChange, changeMountPoint, onDriveLetterChange,
      onCacheChange, cleanupCache, henb, hconf, hbody, runGuarded]

/-- A concrete oracle whose `stopMount` rejects. -/
def envStopFail : Env := { envBase with stop := .error "stop failed" }

/-- Witness for C4: a failing stop during purge rolls `enabled` back to `false`
and toasts the message. -/
theorem claim4_witness :
    (⟨false, cfg0⟩ : ControllerState).enabling = false ∧
    envStopFail.confirm = true ∧
    mutBody MutTransition.purge envStopFail cfg0 =
      Except.error ("stop failed", [Event.native NativeCall.stopVirtualDrive]) ∧
    runMut MutTransition.purge envStopFail ⟨false, cfg0⟩ =
      (⟨false, { cfg0 with enabled := false }⟩,
        mutPre MutTransition.purge ++ [Event.native NativeCall.stopVirtualDrive] ++
          [Event.consoleError, Event.toast "stop failed"]) := by
  refine ⟨rfl, rfl, rfl, ?_⟩
  exact claim4_failure_rollback MutTransition.purge envStopFail ⟨false, cfg0⟩
    "stop failed" [Event.native NativeCall.stopVirtualDrive] rfl rfl rfl

/-- A concrete oracle for a purge begun on a mounted drive: both signals held at
entry, stop and purge succeed, and the post-purge query consequently reports
the drive down. -/
def envPurge : Env := { envBase with mountedAtStart := ⟨true, true⟩ }

/-- Counterexample to C2 as stated: a purge started on a currently-mounted drive
(`mountedAtStart` holds both signals) in which stop and purge succeed — so the
post-purge query reports unmounted — never calls `startOrRestartMount`,
although the claim requires the restart exactly when the mount was active
before the operation began. -/
theorem claim2_counterexample :
    isVirtualDriveMounted envPurge.mountedAtStart = true ∧
    envPurge.stop = Except.ok () ∧
    envPurge.cleanupCall = Except.ok () ∧
    Event.native NativeCall.restartVirtualDrive ∉ (cleanupCache envPurge ⟨false, cfg0⟩).2 := by
  refine ⟨rfl, rfl, rfl, ?_⟩
  decide

/-- Claim C2 amended: `cleanupCache` runs stop, then purge, then a FRESH mounted
query, and calls restart if and only if that post-purge query reports the
mounted conjunction true — the pre-operation mounted state is never consulted;
on success the configuration is returned unchanged and the trace is exactly
dialog, stop, purge, the query, the conditional restart, and the cache-size /
mount-state / drive refetches (no post-restart re-verification). -/
theorem claim2_purge_sequence_amended (env : Env) (st : ControllerState) (p : MountedPair)
    (henb : st.enabling = false) (hconf : env.confirm = true)
    (hstop : env.stop = .ok ()) (hclean : env.cleanupCall = .ok ())
    (hq : env.mountedCheck1 = .ok p) (hrestart : env.restart = .ok ()) :
    cleanupCache env st =
      (⟨false, st.config⟩,
        [Event.dialog, Event.native NativeCall.stopVirtualDrive,
          Event.native NativeCall.virtualDriveCleanupCache] ++ mountedCheckEvents ++
          (if isVirtualDriveMounted p then [Event.native NativeCall.restartVirtualDrive]
            else []) ++
          [Event.refetch QueryName.cacheSize, Event.refetch QueryName.isMounted,
            Event.refetch QueryName.availableDrives]) := by
  cases hm : isVirtualDriveMounted p <;>
    simp [cleanupCache, henb, hconf, cleanupCacheBody, call, andThen, queryMounted,
      hstop, hclean, hq, hrestart, hm, runGuarded, mountedCheckEvents]

/-- Witness for C2 (amended): concrete purge run with the post-purge query
reporting unmounted. -/
theorem claim2_witness :
    (⟨false, cfg0⟩ : ControllerState).enabling = false ∧
    envPurge.confirm = true ∧
    envPurge.stop = Except.ok () ∧
    envPurge.cleanupCall = Except.ok () ∧
    envPurge.mountedCheck1 = Except.ok ⟨false, false⟩ ∧
    envPurge.restart = Except.ok () ∧
    cleanupCache envPurge ⟨false, cfg0⟩ =
      (⟨false, cfg0⟩,
        [Event.dialog, Event.native NativeCall.stopVirtualDrive,
          Event.native NativeCall.virtualDriveCleanupCache] ++ mountedCheckEvents ++
          (if isVirtualDriveMounted ⟨false, false⟩
            then [Event.native NativeCall.restartVirtualDrive] else []) ++
          [Event.refetch QueryName.cacheSize, Event.refetch QueryName.isMounted,
            Event.refetch QueryName.availableDrives]) := by
  refine ⟨rfl, rfl, rfl, rfl, rfl, rfl, ?_⟩
  exact claim2_purge_sequence_amended envPurge ⟨false, cfg0⟩ ⟨false, false⟩
    rfl rfl rfl rfl rfl rfl

/-- Counterexample to C3 as stated: with a 20-GiB budget the cache-step set is
`[10]`, yet requesting the out-of-set size `"7"` is not rejected: the native
mounted query is issued and `cacheSizeInGi = 7` is persisted. -/
theorem claim3_counterexample :
    (7 : Int) ∉ cacheSteps (some (20 * 1024 * 1024 * 1024)) ∧
    Event.native NativeCall.isVirtualDriveMounted ∈
      (onCacheChange envBase ⟨false, cfg0⟩ "7").2 ∧
    (onCacheChange envBase ⟨false, cfg0⟩ "7").1.config.cacheSizeInGi = 7 := by
  refine ⟨by decide, by decide, by decide⟩

/-- Claim C3 amended: `onCacheChange` performs no membership check of the
requested size against the cache-step set: for EVERY size string it runs the
native sequence and persists `parseInt(size)` — out-of-set values are neither
rejected nor clamped (only the selection UI restricts the offered values). -/
theorem claim3_cache_change_amended (env : Env) (st : ControllerState) (size : String)
    (p : MountedPair)
    (henb : st.enabling = false) (hp : env.platform = "win32")
    (hq : env.mountedCheck1 = .ok p) (hdown : isVirtualDriveMounted p = false) :
    onCacheChange env st size =
      (⟨false, { st.config with cacheSizeInGi := parseIntTS size }⟩,
        mountedCheckEvents ++
          [Event.refetch QueryName.isMounted, Event.refetch QueryName.availableDrives,
            Event.refetch QueryName.availableCache]) := by
  simp [onCacheChange, henb, onCacheChangeBody, validateMountPoint, hp, call, andThen,
    queryMounted, remountIfMounted, hq, hdown, runGuarded, mountedCheckEvents]

/-- Witness for C3 (amended): the out-of-set size `"7"` is persisted verbatim. -/
theorem claim3_witness :
    (⟨false, cfg0⟩ : ControllerState).enabling = false ∧
    envBase.platform = "win32" ∧
    envBase.mountedCheck1 = Except.ok ⟨false, false⟩ ∧
    isVirtualDriveMounted ⟨false, false⟩ = false ∧
    onCacheChange envBase ⟨false, cfg0⟩ "7" =
      (⟨false, { cfg0 with cacheSizeInGi := parseIntTS "7" }⟩,
        mountedCheckEvents ++
          [Event.refetch QueryName.isMounted, Event.refetch QueryName.availableDrives,
            Event.refetch QueryName.availableCache]) := by
  refine ⟨rfl, rfl, rfl, rfl, ?_⟩
  exact claim3_cache_change_amended envBase ⟨false, cfg0⟩ "7" ⟨false, false⟩ rfl rfl rfl rfl

/-- A concrete oracle for the mount-point change: path platform, configured
mount point `"a"`, picker returning `"b"`, and a validator accepting exactly
`"a"`. -/
def env7 : Env :=
  { envBase with
    platform := "linux"
    selectDirectory := .ok ⟨false, ["b"]⟩
    verifyUnixMountPath := fun p => .ok (p == "a") }

/-- The configuration paired with `env7`. -/
def cfg7 : VirtualDriveConfig := ⟨true, "a", 10⟩

/-- Counterexample to C7 as stated: the picked target `"b"` fails validation,
yet the transition only validates the previously configured mount point `"a"`,
reports no invalid-mount-point error, and persists the invalid picked path. -/
theorem claim7_counterexample :
    env7.verifyUnixMountPath "b" = Except.ok false ∧
    Event.native (NativeCall.verifyUnixMountPath "a") ∈
      (changeMountPoint env7 ⟨false, cfg7⟩).2 ∧
    Event.native (NativeCall.verifyUnixMountPath "b") ∉
      (changeMountPoint env7 ⟨false, cfg7⟩).2 ∧
    Event.toast invalidMountPointMsg ∉ (changeMountPoint env7 ⟨false, cfg7⟩).2 ∧
    (changeMountPoint env7 ⟨false, cfg7⟩).1.config.mountPoint = "b" := by
  refine ⟨rfl, by decide, by decide, by decide, by decide⟩

/-- Claim C7 amended: on path platforms `changeMountPoint` lets the user pick a
target, validates the CURRENTLY CONFIGURED mount point (not the picked one),
then — exactly when the mounted query reports mounted — restarts and
re-verifies, and only then persists the picked path; when the validation call
returns false it toasts the invalid-mount-point error and persists nothing. -/
theorem claim7_mount_point_sequence_amended (env : Env) (st : ControllerState)
    (res : SelectDirectoryResult)
    (henb : st.enabling = false) (hplat : env.platform ≠ "win32")
    (hsel : env.selectDirectory = .ok res)
    (hcanc : res.cancelled = false) (hpath : firstPath res ≠ "") :
    (env.verifyUnixMountPath st.config.mountPoint = .ok false →
      changeMountPoint env st =
        (⟨false, st.config⟩,
          [Event.native NativeCall.selectDirectory,
            Event.native (NativeCall.verifyUnixMountPath st.config.mountPoint),
            Event.toast invalidMountPointMsg])) ∧
    (env.verifyUnixMountPath st.config.mountPoint = .ok true →
      ∀ p1, env.mountedCheck1 = .ok p1 →
        (isVirtualDriveMounted p1 = false →
          changeMountPoint env st =
            (⟨false, { st.config with mountPoint := firstPath res }⟩,
              [Event.native NativeCall.selectDirectory,
                Event.native (NativeCall.verifyUnixMountPath st.config.mountPoint)] ++
                mountedCheckEvents ++
                [Event.refetch QueryName.isMounted,
                  Event.refetch QueryName.availableDrives])) ∧
        (isVirtualDriveMounted p1 = true → env.restart = .ok () →
          ∀ p2, env.mountedCheck2 = .ok p2 → isVirtualDriveMounted p2 = true →
            changeMountPoint env st =
              (⟨false, { st.config with mountPoint := firstPath res }⟩,
                [Event.native NativeCall.selectDirectory,
                  Event.native (NativeCall.verifyUnixMountPath st.config.mountPoint)] ++
                  mountedCheckEvents ++ [Event.native NativeCall.restartVirtualDrive] ++
                  mountedCheckEvents ++
                  [Event.refetch QueryName.isMounted,
                    Event.refetch QueryName.availableDrives]))) := by
  refine ⟨fun hv => ?_, fun hv p1 hq1 => ⟨fun hm1 => ?_, fun hm1 hr p2 hq2 hm2 => ?_⟩⟩ <;>
    simp [changeMountPoint, henb, changeMountPointBody, call, andThen, hsel, hcanc, hpath,
      validateMountPoint, hplat, hv, remountIfMounted, queryMounted, runGuarded,
      mountedCheckEvents, *]

/-- Witness for C7 (amended): concrete not-currently-mounted run persisting the
picked path after validating the old one. -/
theorem claim7_witness :
    (⟨false, cfg7⟩ : ControllerState).enabling = false ∧
    env7.platform ≠ "win32" ∧
    env7.selectDirectory = Except.ok ⟨false, ["b"]⟩ ∧
    firstPath ⟨false, ["b"]⟩ ≠ "" ∧
    env7.verifyUnixMountPath cfg7.mountPoint = Except.ok true ∧
    env7.mountedCheck1 = Except.ok ⟨false, false⟩ ∧
    changeMountPoint env7 ⟨false, cfg7⟩ =
      (⟨false, { cfg7 with mountPoint := firstPath ⟨false, ["b"]⟩ }⟩,
        [Event.native NativeCall.selectDirectory,
          Event.native (NativeCall.verifyUnixMountPath cfg7.mountPoint)] ++
          mountedCheckEvents ++
          [Event.refetch QueryName.isMounted, Event.refetch QueryName.availableDrives]) := by
  refine ⟨rfl, by decide, rfl, by decide, rfl, rfl, ?_⟩
  exact ((claim7_mount_point_sequence_amended env7 ⟨false, cfg7⟩ ⟨false, ["b"]⟩
      rfl (by decide) rfl rfl (by decide)).2 rfl ⟨false, false⟩ rfl).1 rfl

end VirtualDrive
